import Mathlib

/-!
Verification development for the auth-microservice credential and token
lifecycle engine: a shallow embedding of the three workflow handlers
(register, login, verify), the JWT token adapter, the bcrypt hasher port,
the Prisma user repository adapter, and the `User` domain entity, with
theorems settling the claims of the specification about them.

Conventions of the embedding:
* Promises/exceptions become `Except RpcError` results; a thrown
  `RpcException` with a status/message object is an `RpcError` value.
* Collaborator calls (store lookup/save, hash, compare, sign) are
  parameters of the handlers, with outcome types that mirror exactly the
  failure surface of the adapters wired in `auth.module.ts`
  (`PrismaUserRepository`, `BcryptAdapter`, `JwtTokenAdapter`).
* A JWT string is modelled by the `Token` structure: the serialization
  of header+claims+signature is injective and HS256 signing is
  deterministic, so two token strings are byte-identical iff the
  corresponding `Token` values are equal.
* Machine time is an explicit `Nat` parameter (seconds); `jsonwebtoken`
  reports a token expired iff the clock is at or past the `exp` claim.
* JavaScript object literals whose exact key set matters are modelled as
  ordered association lists `List (String × JsValue)`.
-/

/-- A JavaScript runtime value appearing in a response object literal:
a string, a boolean, or a method reference (a function value). -/
inductive JsValue where
  | vStr (s : String)
  | vBool (b : Bool)
  | vMethodRef
deriving DecidableEq, Repr

/-- The domain `User` entity (`user.entity.ts`): `password` is the stored
hash and is optional; the constructor defaults `isActive` to `true`. -/
structure User where
  id : String
  email : String
  name : String
  password : Option String := none
  isActive : Bool := true
deriving DecidableEq, Repr

/-- JavaScript `String.prototype.trim`: strip leading and trailing
whitespace (whitespace classes modelled by `Char.isWhitespace`). -/
def jsTrim (s : String) : String :=
  ⟨((s.data.dropWhile Char.isWhitespace).reverse.dropWhile
      Char.isWhitespace).reverse⟩

/-- The entity method `User.updateName` (`user.entity.ts` lines 69-74): throws when the new
name is falsy (`""`) or trims to the empty string, otherwise assigns the
trimmed name.  The thrown `Error` is the `.error` case; the unchanged
receiver of the throwing case is simply the original `u`. -/
def User.updateName (u : User) (newName : String) : Except String User :=
  if newName = "" ∨ jsTrim newName = "" then
    .error "User name cannot be empty."
  else
    .ok { u with name := jsTrim newName }

/-- The argument object of a thrown `RpcException`: a numeric status code
and a message. -/
structure RpcError where
  status : Nat
  message : String
deriving DecidableEq, Repr

/-- The identity claims interface `JwtPayload` (`token.port.ts`):
exactly `id`, `email`, `name`. -/
structure JwtPayload where
  id : String
  email : String
  name : String
deriving DecidableEq, Repr

/-- A signed JWT: identity claims, the transport claims `iat`/`exp` added
by `jwtService.sign`, any extra claims the token may carry, and the
symmetric secret it was signed with (HS256 signatures are deterministic,
so the secret determines the signature bytes for given claims). -/
structure Token where
  id : String
  email : String
  name : String
  iat : Nat
  exp : Nat
  extra : List (String × String)
  sigSecret : String
deriving DecidableEq, Repr

/-- The adapter method `JwtTokenAdapter.generateToken` (`jwt.adapter.ts` lines 34-36):
`jwtService.sign(payload)` with the module options of `auth.module.ts`
(`secret`, `expiresIn`), at clock time `now`: the token carries the
payload claims plus `iat = now` and `exp = now + expiresIn`. -/
def JwtTokenAdapter.generateToken (secret : String) (expiresIn : Nat)
    (now : Nat) (p : JwtPayload) : Token :=
  { id := p.id, email := p.email, name := p.name,
    iat := now, exp := now + expiresIn, extra := [], sigSecret := secret }

/-- A token string presented for verification: either not a decodable JWT
at all, or a decodable JWT (possibly signed under a different secret,
possibly expired, possibly carrying extra claims). -/
inductive PresentedToken where
  | malformed
  | tok (t : Token)
deriving DecidableEq, Repr

/-- The failure modes of `jwtService.verify` (the `jsonwebtoken`
library): malformed structure, wrong signature, expired. -/
inductive JwtError where
  | malformed
  | invalidSignature
  | expired
deriving DecidableEq, Repr

/-- The `error.message` strings of the `jsonwebtoken` errors. -/
def JwtError.message : JwtError → String
  | .malformed => "jwt malformed"
  | .invalidSignature => "invalid signature"
  | .expired => "jwt expired"

/-- The library call `jwtService.verify(token, secret)` at clock time `now`: decoding
fails on a malformed string; the signature is checked against `secret`;
a decoded token is expired iff `now` is at or past its `exp` claim. -/
def jwtVerify (secret : String) (now : Nat) :
    PresentedToken → Except JwtError Token
  | .malformed => .error .malformed
  | .tok t =>
    if t.sigSecret ≠ secret then .error .invalidSignature
    else if t.exp ≤ now then .error .expired
    else .ok t

/-- The adapter method `JwtTokenAdapter.verifyToken` (`jwt.adapter.ts` lines 45-64): on
success destructures the fields `id`, `email`, `name` from the decoded token
(dropping `iat`, `exp` and any other claims); on failure throws
`RpcException` with status 401 and the underlying error message. -/
def JwtTokenAdapter.verifyToken (secret : String) (now : Nat)
    (p : PresentedToken) : Except RpcError JwtPayload :=
  match jwtVerify secret now p with
  | .error e => .error { status := 401, message := e.message }
  | .ok t => .ok { id := t.id, email := t.email, name := t.name }

/-- The object literal returned on success (fields `id`, `email`, `name`) by
`verifyToken`, as an ordered JS record: exactly three keys. -/
def payloadFields (p : JwtPayload) : List (String × JsValue) :=
  [("id", .vStr p.id), ("email", .vStr p.email), ("name", .vStr p.name)]

/-- Outcome of `userRepository.findByEmail` as implemented by
`PrismaUserRepository.findByEmail`: a user, `null`, or a thrown
`RpcException` with status 500 and a fixed message. -/
inductive FindOutcome where
  | found (u : User)
  | absent
  | failure
deriving DecidableEq, Repr

/-- Outcome of `hasher.compare` (`BcryptAdapter.compare`): a boolean, or
a rejected promise carrying a generic JS error whose `message` may be
absent (`undefined`). -/
inductive CompareOutcome where
  | ok (b : Bool)
  | failure (msg : Option String)
deriving DecidableEq, Repr

/-- Outcome of `hasher.hash` (`BcryptAdapter.hash`). -/
inductive HashOutcome where
  | ok (h : String)
  | failure (msg : Option String)
deriving DecidableEq, Repr

/-- Outcome of `tokenService.generateToken` as used by the handlers: the
signed token, or a rejected promise with a generic JS error. -/
inductive SignOutcome where
  | ok (t : Token)
  | failure (msg : Option String)
deriving DecidableEq, Repr

/-- Outcome of `userRepository.save` (`PrismaUserRepository.save`):
success, a Prisma `P2002` unique-constraint violation (thrown as a 409
`RpcException`), or another database error (thrown as 500). -/
inductive SaveOutcome where
  | ok
  | dupEmail
  | failure
deriving DecidableEq, Repr

/-- The call `prisma.user.create` returns the inserted row, which
`mapToPrismaCreateData` builds with `password: user.password ?? ''` and
`mapToDomain` maps back to a domain `User`: the saved user is the input
with an absent password replaced by the empty string. -/
def prismaRoundTrip (u : User) : User :=
  { u with password := some (u.password.getD "") }

/-- The object literal passed to `new AuthResponseDto(...)` by both the
login and the register handlers: `id`, `email`, `name`, `isActive`, and
the vestigial `updateName` method reference, in source order. -/
def respUserFields (id email name : String) (isActive : Bool) :
    List (String × JsValue) :=
  [("id", .vStr id), ("email", .vStr email), ("name", .vStr name),
   ("isActive", .vBool isActive), ("updateName", .vMethodRef)]

/-- The DTO `AuthResponseDto`: the sanitized user object and the token. -/
structure AuthResponse where
  user : List (String × JsValue)
  token : Token
deriving DecidableEq, Repr

/-- The DTO `VerifyTokenResponseDto`: the verified payload and the
refreshed token. -/
structure VerifyResponse where
  user : JwtPayload
  token : Token
deriving DecidableEq, Repr

/-- The collaborators injected into `LoginUserHandler`. -/
structure LoginDeps where
  findByEmail : String → FindOutcome
  compare : String → String → CompareOutcome
  sign : JwtPayload → SignOutcome

/-- The fixed message of the 500 `RpcException` thrown by
`PrismaUserRepository.findByEmail` on a database error. -/
def findByEmailDbError : RpcError :=
  { status := 500, message := "Database error finding user by email." }

/-- The invalid-credentials failure of the login handler. -/
def invalidCredentials : RpcError :=
  { status := 400, message := "User/Password not valid" }

/-- The handler `LoginUserHandler.execute`: looks up the user by email; rejects with
a single `RpcException` (status 400, message "User/Password not valid")
when the user is absent, the stored `password` is falsy (absent or the
empty string), or the hash comparison returns false; otherwise signs the
identity payload and returns the response DTO.  `RpcException`s from
collaborators are rethrown unchanged by the catch block; any other error
is wrapped as status 500 with `error.message ?? fallback`. -/
def LoginUserHandler.execute (d : LoginDeps) (email password : String) :
    Except RpcError AuthResponse :=
  match d.findByEmail email with
  | .failure => .error findByEmailDbError
  | .absent => .error invalidCredentials
  | .found u =>
    match u.password with
    | none => .error invalidCredentials
    | some h =>
      if h = "" then .error invalidCredentials
      else
        match d.compare password h with
        | .failure m =>
          .error { status := 500,
                   message := m.getD "An unexpected error occurred during login." }
        | .ok false => .error invalidCredentials
        | .ok true =>
          match d.sign { id := u.id, email := u.email, name := u.name } with
          | .failure m =>
            .error { status := 500,
                     message := m.getD "An unexpected error occurred during login." }
          | .ok tok =>
            .ok { user := respUserFields u.id u.email u.name u.isActive,
                  token := tok }

/-- Whether an `Except` result is a success. -/
def Except.succeeded {ε α : Type} : Except ε α → Bool
  | .ok _ => true
  | .error _ => false

/-- Whether a `CompareOutcome` is a returned boolean (no rejection). -/
def CompareOutcome.returned : CompareOutcome → Bool
  | .ok _ => true
  | .failure _ => false

/-- Whether a `SignOutcome` is a signed token (no rejection). -/
def SignOutcome.signed : SignOutcome → Bool
  | .ok _ => true
  | .failure _ => false

/-- One collaborator call made by `RegisterUserHandler.execute`, in the
order the source performs them: email lookup, password hashing, UUID
generation, store save, token signing. -/
inductive Effect where
  | callFindByEmail (email : String)
  | callHash (password : String)
  | genUuid (id : String)
  | callSave (u : User)
  | callSign (p : JwtPayload)
deriving DecidableEq, Repr

/-- The collaborators of `RegisterUserHandler`, plus the value
`randomUUID()` returns during this invocation. -/
structure RegisterDeps where
  findByEmail : String → FindOutcome
  hash : String → HashOutcome
  freshId : String
  save : User → SaveOutcome
  sign : JwtPayload → SignOutcome

/-- The fixed message of the 500 `RpcException` thrown by
`PrismaUserRepository.save` on a non-P2002 database error. -/
def saveDbError : RpcError :=
  { status := 500, message := "Database error saving user." }

/-- The 409 `RpcException` thrown by `PrismaUserRepository.save` on a
Prisma `P2002` unique-constraint violation. -/
def saveDupEmailError (email : String) : RpcError :=
  { status := 409,
    message := "User with email " ++ email ++ " already exists." }

/-- The 400 `RpcException` thrown by the register handler when the email
lookup finds an existing user. -/
def userAlreadyExists : RpcError :=
  { status := 400, message := "User already exists" }

/-- The handler `RegisterUserHandler.execute` (`register-user.handler.ts` lines
55-108), paired with the trace of collaborator calls it performs:
pre-check the email (existing user → 400 "User already exists"), hash
the password, generate a UUID, save
`new User(id, email, name, hashedPassword)` (so `isActive = true`),
sign the identity payload of the saved user, and return the response DTO.
thrown `RpcException` values (including the 409/500 of the repository) are rethrown
unchanged; other errors are wrapped as 500 with
`error.message ?? fallback`. -/
def RegisterUserHandler.run (d : RegisterDeps)
    (name email password : String) :
    Except RpcError AuthResponse × List Effect :=
  match d.findByEmail email with
  | .failure => (.error findByEmailDbError, [.callFindByEmail email])
  | .found _ => (.error userAlreadyExists, [.callFindByEmail email])
  | .absent =>
    match d.hash password with
    | .failure m =>
      (.error { status := 500,
                message := m.getD "An unexpected error occurred during registration." },
       [.callFindByEmail email, .callHash password])
    | .ok hp =>
      let id := d.freshId
      let userToSave : User :=
        { id := id, email := email, name := name, password := some hp,
          isActive := true }
      match d.save userToSave with
      | .failure =>
        (.error saveDbError,
         [.callFindByEmail email, .callHash password, .genUuid id,
          .callSave userToSave])
      | .dupEmail =>
        (.error (saveDupEmailError email),
         [.callFindByEmail email, .callHash password, .genUuid id,
          .callSave userToSave])
      | .ok =>
        let savedUser := prismaRoundTrip userToSave
        let payload : JwtPayload :=
          { id := savedUser.id, email := savedUser.email,
            name := savedUser.name }
        match d.sign payload with
        | .failure m =>
          (.error { status := 500,
                    message := m.getD "An unexpected error occurred during registration." },
           [.callFindByEmail email, .callHash password, .genUuid id,
            .callSave userToSave, .callSign payload])
        | .ok tok =>
          (.ok { user := respUserFields savedUser.id savedUser.email
                           savedUser.name savedUser.isActive,
                 token := tok },
           [.callFindByEmail email, .callHash password, .genUuid id,
            .callSave userToSave, .callSign payload])

/-- The handler `VerifyTokenHandler.execute` (`verify-token.handler.ts` lines
39-55): delegates to `tokenService.verifyToken`, then mints a new token
from the verified payload; the catch block turns EVERY failure inside
the try (the 401 `RpcException` of the adapter as well as any error from the
refresh mint) into a single `RpcException` with status 401 and the
fixed message "Invalid token". -/
def VerifyTokenHandler.execute (secret : String) (now : Nat)
    (sign : JwtPayload → SignOutcome) (p : PresentedToken) :
    Except RpcError VerifyResponse :=
  match JwtTokenAdapter.verifyToken secret now p with
  | .error _ => .error { status := 401, message := "Invalid token" }
  | .ok payload =>
    match sign payload with
    | .failure _ => .error { status := 401, message := "Invalid token" }
    | .ok tok => .ok { user := payload, token := tok }

/-- The well-behaved token signer: `tokenService.generateToken` run at
clock time `now` under the configured secret and expiry, never
rejecting (the spec: signing never fails under valid configuration). -/
def goodSign (secret : String) (expiresIn now : Nat) :
    JwtPayload → SignOutcome :=
  fun p => .ok (JwtTokenAdapter.generateToken secret expiresIn now p)

/-- The uniform external error envelope.

Modelled from the spec: the global `AllExceptionsFilter`
(`shared/infrastructure/filters`, referenced by `main.ts` but not part
of the repository snapshot) re-shapes every error surfaced to a caller
into a triple of numeric status code, human-readable message, and
timestamp. -/
structure ErrorEnvelope where
  status : Nat
  message : String
  timestamp : Nat
deriving DecidableEq, Repr

/-- Modelled from the spec: `AllExceptionsFilter` (missing from the
snapshot; see `ErrorEnvelope`) wraps a thrown `RpcError` into the
uniform envelope, stamping the current time. -/
def AllExceptionsFilter.toEnvelope (e : RpcError) (now : Nat) :
    ErrorEnvelope :=
  { status := e.status, message := e.message, timestamp := now }

/-- The status of a failed result, `none` on success. -/
def resultStatus {α : Type} : Except RpcError α → Option Nat
  | .error e => some e.status
  | .ok _ => none

/-- The key list of the `user` object of a successful auth response. -/
def resultUserKeys : Except RpcError AuthResponse → Option (List String)
  | .ok r => some (r.user.map Prod.fst)
  | .error _ => none

/-- Whether the `user` object of a successful auth response has a field
named `k`. -/
def resultUserHasKey (r : Except RpcError AuthResponse) (k : String) :
    Bool :=
  match r with
  | .ok a => a.user.any (fun f => f.1 = k)
  | .error _ => false

/-! Concrete fixtures used by counterexamples and witnesses. -/

/-- A registered user with a stored hash. -/
def uAda : User :=
  { id := "u-1", email := "ada@x.io", name := "Ada",
    password := some "H", isActive := true }

/-- The identity payload of `uAda`. -/
def pAda : JwtPayload := { id := "u-1", email := "ada@x.io", name := "Ada" }

/-- A token minted for `pAda` at time 0 with a 2-hour expiry. -/
def tAda : Token := JwtTokenAdapter.generateToken "secret" 7200 0 pAda

/-- Login collaborators over a store holding exactly `uAda`, a comparer
accepting exactly the password "Str0ng!Pass" against the hash "H", and
the well-behaved signer at time 0. -/
def dLoginAda : LoginDeps :=
  { findByEmail := fun e => if e = "ada@x.io" then .found uAda else .absent,
    compare := fun p h => .ok (p = "Str0ng!Pass" && h = "H"),
    sign := goodSign "secret" 7200 0 }

/-- Register collaborators over a store already holding `uAda`. -/
def dRegDup : RegisterDeps :=
  { findByEmail := fun e => if e = "ada@x.io" then .found uAda else .absent,
    hash := fun _ => .ok "H2",
    freshId := "u-2",
    save := fun _ => .ok,
    sign := goodSign "secret" 7200 0 }

/-- Whether a register-workflow effect is the read-only email lookup. -/
def Effect.isLookup : Effect → Bool
  | .callFindByEmail _ => true
  | _ => false

/-- The register collaborators of `dRegDup` over an empty store. -/
def dRegFresh : RegisterDeps :=
  { dRegDup with findByEmail := fun _ => .absent }

/-- The response the concrete login `dLoginAda` produces. -/
def rLoginAda : AuthResponse :=
  { user := respUserFields "u-1" "ada@x.io" "Ada" true,
    token := JwtTokenAdapter.generateToken "secret" 7200 0 pAda }

/-- The response the concrete registration over `dRegFresh` produces. -/
def rRegAda : AuthResponse :=
  { user := respUserFields "u-2" "ada@x.io" "Ada" true,
    token := JwtTokenAdapter.generateToken "secret" 7200 0
      { id := "u-2", email := "ada@x.io", name := "Ada" } }

/-- A token carrying extra claims and nonzero transport claims. -/
def tExtra : Token :=
  { id := "u-9", email := "x@y.io", name := "X",
    iat := 5, exp := 100, extra := [("role", "admin")], sigSecret := "s" }

/-- The stored user `uAda` with `isActive = false`. -/
def uInactive : User := { uAda with isActive := false }

/-- Login collaborators over a store holding the deactivated user. -/
def dLoginInactive : LoginDeps :=
  { dLoginAda with
    findByEmail := fun e =>
      if e = "ada@x.io" then .found uInactive else .absent }

/-- C10: `User.updateName` rejects exactly the inputs that trim to the
empty string (including the empty string itself, which is falsy), and
otherwise sets `name` to the trimmed input while leaving `id`, `email`,
`password` and `isActive` unchanged; in the rejecting case nothing is
assigned, so the user is unchanged. -/
theorem updateName_trim_invariant (u : User) (s : String) :
    User.updateName u s =
      if jsTrim s = "" then .error "User name cannot be empty."
      else .ok { id := u.id, email := u.email, name := jsTrim s,
                 password := u.password, isActive := u.isActive } := by
  unfold User.updateName
  by_cases h : s = ""
  · subst h
    have htrim : jsTrim "" = "" := rfl
    simp [htrim]
  · by_cases h2 : jsTrim s = "" <;> simp [h, h2]

/-- C3 counterexample: a token minted at time 0 and verified at time 0
(the same second, hence the same `iat` and `exp` claims) is refreshed
into a token identical to the input: the workflow succeeds and returns
the same payload, but the returned token string is byte-identical to
the presented one, not different. -/
theorem verify_same_second_returns_identical_token :
    VerifyTokenHandler.execute "secret" 0 (goodSign "secret" 7200 0)
        (.tok tAda)
      = .ok { user := pAda, token := tAda } := by
  rfl

/-- C3 (amended): verifying a token minted from `payload` at time `t`,
at any time `t'` before its expiry, succeeds, returns exactly the same
identity payload, and returns the token `generateToken` mints at `t'` —
which differs from the input token precisely when `t' ≠ t` (the
same-second refresh is byte-identical). -/
theorem verify_fresh_token_roundtrip (secret : String) (dur t tv : Nat)
    (p : JwtPayload) (h : tv < t + dur) :
    VerifyTokenHandler.execute secret tv (goodSign secret dur tv)
        (.tok (JwtTokenAdapter.generateToken secret dur t p))
      = .ok { user := p,
              token := JwtTokenAdapter.generateToken secret dur tv p } ∧
    (JwtTokenAdapter.generateToken secret dur tv p =
        JwtTokenAdapter.generateToken secret dur t p ↔ tv = t) := by
  constructor
  · unfold VerifyTokenHandler.execute JwtTokenAdapter.verifyToken jwtVerify
      goodSign JwtTokenAdapter.generateToken
    simp [Nat.not_le.mpr h]
  · unfold JwtTokenAdapter.generateToken
    simp [Token.mk.injEq]

/-- C3 witness: the amended round-trip at `t = 0`, `tv = 1`. -/
theorem verify_fresh_token_roundtrip_witness :
    VerifyTokenHandler.execute "secret" 1 (goodSign "secret" 7200 1)
        (.tok (JwtTokenAdapter.generateToken "secret" 7200 0 pAda))
      = .ok { user := pAda,
              token := JwtTokenAdapter.generateToken "secret" 7200 1 pAda } ∧
    (JwtTokenAdapter.generateToken "secret" 7200 1 pAda =
        JwtTokenAdapter.generateToken "secret" 7200 0 pAda ↔ (1 : Nat) = 0) :=
  verify_fresh_token_roundtrip "secret" 7200 0 1 pAda (by decide)

/-- C1: when the collaborators respond (the lookup does not hit a
database error, the comparer and signer do not reject), the login
workflow succeeds exactly when the store holds a user with the given
email whose stored password hash is present and non-empty and the
comparison of the supplied password against that hash returns true; and
every failure it produces is the single `RpcError` with status 400 and
message "User/Password not valid", identical across the absent-user,
absent-hash and mismatched-password causes. -/
theorem login_succeeds_iff (d : LoginDeps) (email password : String)
    (hfind : d.findByEmail email ≠ .failure)
    (hcmp : ∀ h, (d.compare password h).returned = true)
    (hsign : ∀ q, (d.sign q).signed = true) :
    ((LoginUserHandler.execute d email password).succeeded = true ↔
      ∃ u h, d.findByEmail email = .found u ∧ u.password = some h ∧
        h ≠ "" ∧ d.compare password h = .ok true) ∧
    (∀ e, LoginUserHandler.execute d email password = .error e →
      e = invalidCredentials) := by
  cases hf : d.findByEmail email with
  | failure => exact absurd hf hfind
  | absent =>
    have hexec : LoginUserHandler.execute d email password =
        .error invalidCredentials := by
      simp [LoginUserHandler.execute, hf]
    refine ⟨⟨fun hs => ?_, fun hex => ?_⟩, fun e he => ?_⟩
    · rw [hexec] at hs; cases hs
    · obtain ⟨u, h, hu, -⟩ := hex
      simp at hu
    · rw [hexec] at he
      exact ((Except.error.injEq _ _).mp he).symm
  | found u =>
    cases hp : u.password with
    | none =>
      have hexec : LoginUserHandler.execute d email password =
          .error invalidCredentials := by
        simp [LoginUserHandler.execute, hf, hp]
      refine ⟨⟨fun hs => ?_, fun hex => ?_⟩, fun e he => ?_⟩
      · rw [hexec] at hs; cases hs
      · obtain ⟨u', h, hu, hph, -⟩ := hex
        injection hu with hu'
        subst hu'
        rw [hp] at hph
        exact Option.noConfusion hph
      · rw [hexec] at he
        exact ((Except.error.injEq _ _).mp he).symm
    | some hsh =>
      by_cases hemp : hsh = ""
      · subst hemp
        have hexec : LoginUserHandler.execute d email password =
            .error invalidCredentials := by
          simp [LoginUserHandler.execute, hf, hp]
        refine ⟨⟨fun hs => ?_, fun hex => ?_⟩, fun e he => ?_⟩
        · rw [hexec] at hs; cases hs
        · obtain ⟨u', h, hu, hph, hne, -⟩ := hex
          injection hu with hu'
          subst hu'
          rw [hp] at hph
          injection hph with hph'
          exact absurd hph'.symm hne
        · rw [hexec] at he
          exact ((Except.error.injEq _ _).mp he).symm
      · cases hc : d.compare password hsh with
        | failure m =>
          have hbad := hcmp hsh
          rw [hc] at hbad; cases hbad
        | ok b =>
          cases b with
          | false =>
            have hexec : LoginUserHandler.execute d email password =
                .error invalidCredentials := by
              simp [LoginUserHandler.execute, hf, hp, hemp, hc]
            refine ⟨⟨fun hs => ?_, fun hex => ?_⟩, fun e he => ?_⟩
            · rw [hexec] at hs; cases hs
            · obtain ⟨u', h, hu, hph, -, hcm⟩ := hex
              injection hu with hu'
              subst hu'
              rw [hp] at hph
              injection hph with hph'
              subst hph'
              rw [hc] at hcm
              simp at hcm
            · rw [hexec] at he
              exact ((Except.error.injEq _ _).mp he).symm
          | true =>
            cases hs : d.sign { id := u.id, email := u.email, name := u.name } with
            | failure m =>
              have hbad := hsign { id := u.id, email := u.email, name := u.name }
              rw [hs] at hbad; cases hbad
            | ok tok =>
              have hexec : LoginUserHandler.execute d email password =
                  .ok { user := respUserFields u.id u.email u.name u.isActive,
                        token := tok } := by
                simp [LoginUserHandler.execute, hf, hp, hemp, hc, hs]
              refine ⟨⟨fun _ => ⟨u, hsh, rfl, hp, hemp, hc⟩, fun _ => ?_⟩,
                fun e he => ?_⟩
              · rw [hexec]; rfl
              · rw [hexec] at he; cases he

/-- C1 witness: the characterization at the concrete store `dLoginAda`
holding `uAda` with hash "H". -/
theorem login_succeeds_iff_witness :
    (((LoginUserHandler.execute dLoginAda "ada@x.io" "Str0ng!Pass").succeeded = true ↔
      ∃ u h, dLoginAda.findByEmail "ada@x.io" = .found u ∧
        u.password = some h ∧ h ≠ "" ∧
        dLoginAda.compare "Str0ng!Pass" h = .ok true) ∧
    (∀ e, LoginUserHandler.execute dLoginAda "ada@x.io" "Str0ng!Pass" = .error e →
      e = invalidCredentials)) :=
  login_succeeds_iff dLoginAda "ada@x.io" "Str0ng!Pass"
    (by intro h; cases h)
    (fun h => rfl)
    (fun q => rfl)

/-- C2 counterexample: registering an email already held by the store
(`dRegDup` holds `uAda` under "ada@x.io") fails with status 400, not
with the Conflict status 409 the claim requires. -/
theorem register_dup_email_status_is_400_not_409 :
    resultStatus (RegisterUserHandler.run dRegDup "Ada" "ada@x.io" "Str0ng!Pass").1
      = some 400 ∧
    resultStatus (RegisterUserHandler.run dRegDup "Ada" "ada@x.io" "Str0ng!Pass").1
      ≠ some 409 := by
  constructor
  · rfl
  · intro h
    have : (400 : Nat) = 409 := by
      have h' := h
      rw [show resultStatus (RegisterUserHandler.run dRegDup "Ada" "ada@x.io" "Str0ng!Pass").1 = some 400 from rfl] at h'
      exact Option.some.inj h'
    simp at this

/-- C2 (amended): for every registration whose email the lookup finds
already present, the workflow rejects with status 400 and message
"User already exists" (the 409 Conflict status appears only in the
save-time unique-constraint race, not in this pre-check), and performs
no store mutation: the trace consists of the email lookup alone, so no
hash is computed, no id is generated, and save is never called. -/
theorem register_existing_email_rejects_without_mutation
    (d : RegisterDeps) (name email password : String) (u : User)
    (hfound : d.findByEmail email = .found u) :
    RegisterUserHandler.run d name email password =
      (.error userAlreadyExists, [.callFindByEmail email]) ∧
    userAlreadyExists = { status := 400, message := "User already exists" } ∧
    (RegisterUserHandler.run d name email password).2.all Effect.isLookup = true := by
  have hrun : RegisterUserHandler.run d name email password =
      (.error userAlreadyExists, [.callFindByEmail email]) := by
    simp [RegisterUserHandler.run, hfound]
  refine ⟨hrun, rfl, ?_⟩
  rw [hrun]
  rfl

/-- C2 witness: the amended behavior at the concrete store `dRegDup`. -/
theorem register_existing_email_rejects_without_mutation_witness :
    (RegisterUserHandler.run dRegDup "Ada" "ada@x.io" "Str0ng!Pass" =
      (.error userAlreadyExists, [.callFindByEmail "ada@x.io"]) ∧
    userAlreadyExists = { status := 400, message := "User already exists" } ∧
    (RegisterUserHandler.run dRegDup "Ada" "ada@x.io" "Str0ng!Pass").2.all Effect.isLookup = true) :=
  register_existing_email_rejects_without_mutation dRegDup "Ada" "ada@x.io"
    "Str0ng!Pass" uAda (by rfl)

/-- C4 counterexample: the user object of a successful login response does
not consist of exactly the four fields id, email, name, isActive — it
also carries the vestigial `updateName` method reference. -/
theorem login_response_user_carries_updateName :
    resultUserKeys (LoginUserHandler.execute dLoginAda "ada@x.io" "Str0ng!Pass")
      = some ["id", "email", "name", "isActive", "updateName"] ∧
    resultUserHasKey (LoginUserHandler.execute dLoginAda "ada@x.io" "Str0ng!Pass")
      "updateName" = true := by
  constructor <;> rfl

/-- C4 (amended): every successful login or register response carries a
user object that is exactly the five-field literal
`respUserFields` — the four data fields id, email, name, isActive of
the stored (resp. saved) user plus the vestigial `updateName` method
reference — whose key list is exactly
["id", "email", "name", "isActive", "updateName"] and which has no
"password" field, so the stored hash never appears in a response. -/
theorem auth_response_user_sanitized
    (dL : LoginDeps) (dR : RegisterDeps) (nm email password : String)
    (r rr : AuthResponse) :
    (LoginUserHandler.execute dL email password = .ok r →
      ∃ u, dL.findByEmail email = .found u ∧
        r.user = respUserFields u.id u.email u.name u.isActive) ∧
    ((RegisterUserHandler.run dR nm email password).1 = .ok rr →
      rr.user = respUserFields dR.freshId email nm true) ∧
    (∀ i e n a, (respUserFields i e n a).map Prod.fst =
        ["id", "email", "name", "isActive", "updateName"] ∧
      (respUserFields i e n a).lookup "password" = none) := by
  refine ⟨?_, ?_, fun i e n a => ⟨rfl, rfl⟩⟩
  · intro hok
    cases hf : dL.findByEmail email with
    | failure => simp [LoginUserHandler.execute, hf] at hok
    | absent => simp [LoginUserHandler.execute, hf] at hok
    | found u =>
      refine ⟨u, rfl, ?_⟩
      cases hp : u.password with
      | none => simp [LoginUserHandler.execute, hf, hp] at hok
      | some hsh =>
        by_cases hemp : hsh = ""
        · subst hemp
          simp [LoginUserHandler.execute, hf, hp] at hok
        · cases hc : dL.compare password hsh with
          | failure m => simp [LoginUserHandler.execute, hf, hp, hemp, hc] at hok
          | ok b =>
            cases b with
            | false => simp [LoginUserHandler.execute, hf, hp, hemp, hc] at hok
            | true =>
              cases hs : dL.sign { id := u.id, email := u.email, name := u.name } with
              | failure m =>
                simp [LoginUserHandler.execute, hf, hp, hemp, hc, hs] at hok
              | ok tok =>
                have : LoginUserHandler.execute dL email password =
                    .ok { user := respUserFields u.id u.email u.name u.isActive,
                          token := tok } := by
                  simp [LoginUserHandler.execute, hf, hp, hemp, hc, hs]
                rw [this] at hok
                injection hok with hok'
                rw [← hok']
  · intro hok
    cases hf : dR.findByEmail email with
    | failure => simp [RegisterUserHandler.run, hf] at hok
    | found u => simp [RegisterUserHandler.run, hf] at hok
    | absent =>
      cases hh : dR.hash password with
      | failure m => simp [RegisterUserHandler.run, hf, hh] at hok
      | ok hp =>
        cases hsv : dR.save ⟨dR.freshId, email, nm, some hp, true⟩ with
        | failure => simp [RegisterUserHandler.run, hf, hh, hsv] at hok
        | dupEmail => simp [RegisterUserHandler.run, hf, hh, hsv] at hok
        | ok =>
          cases hs : dR.sign { id := dR.freshId, email := email, name := nm } with
          | failure m =>
            simp [RegisterUserHandler.run, hf, hh, hsv, prismaRoundTrip, hs] at hok
          | ok tok =>
            have : (RegisterUserHandler.run dR nm email password).1 =
                .ok { user := respUserFields dR.freshId email nm true,
                      token := tok } := by
              simp [RegisterUserHandler.run, hf, hh, hsv, prismaRoundTrip, hs]
            rw [this] at hok
            injection hok with hok'
            rw [← hok']

/-- C4 witness for the amended statement: the concrete login and a
concrete registration, with the success hypotheses discharged by
evaluation. -/
theorem auth_response_user_sanitized_witness :
    (∃ u, dLoginAda.findByEmail "ada@x.io" = .found u ∧
      rLoginAda.user = respUserFields u.id u.email u.name u.isActive) ∧
    rRegAda.user = respUserFields dRegFresh.freshId "ada@x.io" "Ada" true ∧
    (∀ i e n a, (respUserFields i e n a).map Prod.fst =
        ["id", "email", "name", "isActive", "updateName"] ∧
      (respUserFields i e n a).lookup "password" = none) :=
  ⟨(auth_response_user_sanitized dLoginAda dRegFresh "Ada" "ada@x.io"
      "Str0ng!Pass" rLoginAda rRegAda).1 (by rfl),
   (auth_response_user_sanitized dLoginAda dRegFresh "Ada" "ada@x.io"
      "Str0ng!Pass" rLoginAda rRegAda).2.1 (by rfl),
   (auth_response_user_sanitized dLoginAda dRegFresh "Ada" "ada@x.io"
      "Str0ng!Pass" rLoginAda rRegAda).2.2⟩

/-- C5 counterexample: for an expired token the adapter-level failure
carries the underlying reason "jwt expired", but the verify workflow
surfaces status 401 with the fixed message "Invalid token" — the
underlying failure reason does not reach the caller. -/
theorem verify_workflow_hides_underlying_reason :
    JwtTokenAdapter.verifyToken "secret" 7200 (.tok tAda) =
      .error { status := 401, message := "jwt expired" } ∧
    VerifyTokenHandler.execute "secret" 7200 (goodSign "secret" 7200 7200)
        (.tok tAda) =
      .error { status := 401, message := "Invalid token" } ∧
    ("Invalid token" : String) ≠ "jwt expired" := by
  refine ⟨rfl, rfl, by decide⟩

/-- C5 (amended): for every token string on which adapter-level
verification fails (malformed, bad signature, or expired alike), the
verify workflow fails with status 401 and the fixed message
"Invalid token", uniformly; the underlying reason appears only in the 401 error of the
adapter, which the catch block of the workflow replaces. -/
theorem verify_workflow_uniform_401 (secret : String) (now : Nat)
    (sign : JwtPayload → SignOutcome) (p : PresentedToken)
    (hfail : (JwtTokenAdapter.verifyToken secret now p).succeeded = false) :
    VerifyTokenHandler.execute secret now sign p =
      .error { status := 401, message := "Invalid token" } := by
  cases hv : JwtTokenAdapter.verifyToken secret now p with
  | error e => simp [VerifyTokenHandler.execute, hv]
  | ok q =>
    rw [hv] at hfail
    simp [Except.succeeded] at hfail

/-- C5 witness: a malformed token string. -/
theorem verify_workflow_uniform_401_witness :
    VerifyTokenHandler.execute "secret" 0 (goodSign "secret" 7200 0)
        .malformed =
      .error { status := 401, message := "Invalid token" } :=
  verify_workflow_uniform_401 "secret" 0 (goodSign "secret" 7200 0)
    .malformed (by rfl)

/-- C6: whenever `jwtService.verify` decodes a token, the function
`verifyToken` of the adapter returns exactly the three identity fields of the decoded
token — the returned object literal has key list
["id", "email", "name"], with no "iat" and no "exp" key — regardless of
the `iat`, `exp` and any extra claims the token carried. -/
theorem verifyToken_strips_transport_claims (secret : String) (now : Nat)
    (p : PresentedToken) (t : Token)
    (hdec : jwtVerify secret now p = .ok t) :
    JwtTokenAdapter.verifyToken secret now p =
      .ok { id := t.id, email := t.email, name := t.name } ∧
    (payloadFields { id := t.id, email := t.email, name := t.name }).map
        Prod.fst = ["id", "email", "name"] ∧
    "iat" ∉ (payloadFields { id := t.id, email := t.email, name := t.name }).map
        Prod.fst ∧
    "exp" ∉ (payloadFields { id := t.id, email := t.email, name := t.name }).map
        Prod.fst := by
  refine ⟨?_, rfl, ?_, ?_⟩
  · unfold JwtTokenAdapter.verifyToken
    rw [hdec]
  · simp [payloadFields]
  · simp [payloadFields]

/-- C6 witness: a decoded token with an extra "role" claim. -/
theorem verifyToken_strips_transport_claims_witness :
    JwtTokenAdapter.verifyToken "s" 10 (.tok tExtra) =
      .ok { id := tExtra.id, email := tExtra.email, name := tExtra.name } ∧
    (payloadFields { id := tExtra.id, email := tExtra.email, name := tExtra.name }).map
        Prod.fst = ["id", "email", "name"] ∧
    "iat" ∉ (payloadFields { id := tExtra.id, email := tExtra.email, name := tExtra.name }).map
        Prod.fst ∧
    "exp" ∉ (payloadFields { id := tExtra.id, email := tExtra.email, name := tExtra.name }).map
        Prod.fst :=
  verifyToken_strips_transport_claims "s" 10 (.tok tExtra) tExtra (by rfl)

/-- C9: the catch block of the verify workflow collapses every failure into
the single 401 error with fixed message "Invalid token": every error it
ever returns equals that error, and in particular a rejection of the
refresh-mint step after a successful verification is surfaced as that
same 401, never as a 500 Internal error. -/
theorem verify_failures_collapse_to_401 (secret : String) (now : Nat)
    (sign : JwtPayload → SignOutcome) (p : PresentedToken) (e : RpcError) :
    (VerifyTokenHandler.execute secret now sign p = .error e →
      e = { status := 401, message := "Invalid token" }) ∧
    (∀ t m, jwtVerify secret now p = .ok t →
      sign { id := t.id, email := t.email, name := t.name } = .failure m →
      VerifyTokenHandler.execute secret now sign p =
        .error { status := 401, message := "Invalid token" }) := by
  constructor
  · intro he
    cases hv : JwtTokenAdapter.verifyToken secret now p with
    | error e' =>
      simp [VerifyTokenHandler.execute, hv] at he
      exact he.symm
    | ok q =>
      cases hsO : sign q with
      | failure m =>
        simp [VerifyTokenHandler.execute, hv, hsO] at he
        exact he.symm
      | ok tok =>
        simp [VerifyTokenHandler.execute, hv, hsO] at he
  · intro t m hv hsf
    have hvt : JwtTokenAdapter.verifyToken secret now p =
        .ok { id := t.id, email := t.email, name := t.name } := by
      unfold JwtTokenAdapter.verifyToken
      rw [hv]
    simp [VerifyTokenHandler.execute, hvt, hsf]

/-- C9 witness: a signer that rejects after a successful verification
still yields the 401 "Invalid token" error. -/
theorem verify_failures_collapse_to_401_witness :
    VerifyTokenHandler.execute "secret" 0
        (fun _ => SignOutcome.failure (some "boom")) (.tok tAda) =
      .error { status := 401, message := "Invalid token" } :=
  (verify_failures_collapse_to_401 "secret" 0
      (fun _ => SignOutcome.failure (some "boom")) (.tok tAda)
      { status := 401, message := "Invalid token" }).2 tAda (some "boom")
    (by rfl) (by rfl)

/-- C8: neither login nor verification consults `isActive`: for every
stored user with a present, non-empty hash and a matching password,
login succeeds whatever `isActive` is, the response user object carries
that same `isActive` value, and the token minted at login verifies and
is refreshed successfully before its expiry. -/
theorem login_and_verify_ignore_isActive
    (d : LoginDeps) (email password : String) (u : User) (hsh : String)
    (secret : String) (dur t tv : Nat)
    (hfind : d.findByEmail email = .found u)
    (hpw : u.password = some hsh) (hne : hsh ≠ "")
    (hcmp : d.compare password hsh = .ok true)
    (hsign : d.sign = goodSign secret dur t)
    (hfresh : tv < t + dur) :
    LoginUserHandler.execute d email password =
      .ok { user := respUserFields u.id u.email u.name u.isActive,
            token := JwtTokenAdapter.generateToken secret dur t
              { id := u.id, email := u.email, name := u.name } } ∧
    (respUserFields u.id u.email u.name u.isActive).lookup "isActive" =
      some (.vBool u.isActive) ∧
    VerifyTokenHandler.execute secret tv (goodSign secret dur tv)
        (.tok (JwtTokenAdapter.generateToken secret dur t
          { id := u.id, email := u.email, name := u.name })) =
      .ok { user := { id := u.id, email := u.email, name := u.name },
            token := JwtTokenAdapter.generateToken secret dur tv
              { id := u.id, email := u.email, name := u.name } } := by
  refine ⟨?_, ?_, ?_⟩
  · simp [LoginUserHandler.execute, hfind, hpw, hne, hcmp, hsign, goodSign]
  · rfl
  · unfold VerifyTokenHandler.execute JwtTokenAdapter.verifyToken jwtVerify
      goodSign JwtTokenAdapter.generateToken
    simp [Nat.not_le.mpr hfresh]

/-- C8 witness: the deactivated user logs in, the response says
`isActive := false`, and the minted token verifies and refreshes. -/
theorem login_and_verify_ignore_isActive_witness :
    LoginUserHandler.execute dLoginInactive "ada@x.io" "Str0ng!Pass" =
      .ok { user := respUserFields "u-1" "ada@x.io" "Ada" false,
            token := JwtTokenAdapter.generateToken "secret" 7200 0 pAda } ∧
    (respUserFields "u-1" "ada@x.io" "Ada" false).lookup "isActive" =
      some (.vBool false) ∧
    VerifyTokenHandler.execute "secret" 1 (goodSign "secret" 7200 1)
        (.tok (JwtTokenAdapter.generateToken "secret" 7200 0 pAda)) =
      .ok { user := pAda,
            token := JwtTokenAdapter.generateToken "secret" 7200 1 pAda } :=
  login_and_verify_ignore_isActive dLoginInactive "ada@x.io" "Str0ng!Pass"
    uInactive "H" "secret" 7200 0 1 (by rfl) (by rfl) (by decide) (by rfl)
    (by rfl) (by decide)

/-- Appending a non-empty string on the right keeps a string
non-empty. -/
theorem append_right_ne_empty (s t : String) (h : t ≠ "") : s ++ t ≠ "" := by
  intro hc
  have hd := congrArg String.data hc
  simp [String.data_append] at hd
  exact h (String.ext hd.2)

/-- Classification of every error the login workflow can return, given
that rejected comparer/signer promises never carry the empty string as
their message (they carry either no message or a non-empty one): the
status is one of the external codes and the message is non-empty. -/
theorem login_error_classified (d : LoginDeps) (email password : String)
    (e : RpcError)
    (hc : ∀ hsh, d.compare password hsh ≠ .failure (some ""))
    (hs : ∀ q, d.sign q ≠ .failure (some ""))
    (he : LoginUserHandler.execute d email password = .error e) :
    e.status ∈ [400, 401, 404, 409, 500] ∧ e.message ≠ "" := by
  cases hf : d.findByEmail email with
  | failure =>
    simp [LoginUserHandler.execute, hf] at he
    rw [← he]
    exact ⟨by simp [findByEmailDbError], by simp [findByEmailDbError]⟩
  | absent =>
    simp [LoginUserHandler.execute, hf] at he
    rw [← he]
    exact ⟨by simp [invalidCredentials], by simp [invalidCredentials]⟩
  | found u =>
    cases hp : u.password with
    | none =>
      simp [LoginUserHandler.execute, hf, hp] at he
      rw [← he]
      exact ⟨by simp [invalidCredentials], by simp [invalidCredentials]⟩
    | some hsh =>
      by_cases hemp : hsh = ""
      · subst hemp
        simp [LoginUserHandler.execute, hf, hp] at he
        rw [← he]
        exact ⟨by simp [invalidCredentials], by simp [invalidCredentials]⟩
      · cases hcm : d.compare password hsh with
        | failure m =>
          simp [LoginUserHandler.execute, hf, hp, hemp, hcm] at he
          rw [← he]
          refine ⟨by simp, ?_⟩
          cases m with
          | none => simp
          | some s =>
            simp only [Option.getD]
            intro hzero
            exact hc hsh (by rw [hcm, hzero])
        | ok b =>
          cases b with
          | false =>
            simp [LoginUserHandler.execute, hf, hp, hemp, hcm] at he
            rw [← he]
            exact ⟨by simp [invalidCredentials], by simp [invalidCredentials]⟩
          | true =>
            cases hso : d.sign { id := u.id, email := u.email, name := u.name } with
            | failure m =>
              simp [LoginUserHandler.execute, hf, hp, hemp, hcm, hso] at he
              rw [← he]
              refine ⟨by simp, ?_⟩
              cases m with
              | none => simp
              | some s =>
                simp only [Option.getD]
                intro hzero
                exact hs _ (by rw [hso, hzero])
            | ok tok =>
              simp [LoginUserHandler.execute, hf, hp, hemp, hcm, hso] at he

/-- Classification of every error the register workflow can return,
under the same non-empty-rejection-message proviso for the hasher and
signer. -/
theorem register_error_classified (d : RegisterDeps)
    (nm email password : String) (e : RpcError)
    (hh : d.hash password ≠ .failure (some ""))
    (hs : ∀ q, d.sign q ≠ .failure (some ""))
    (he : (RegisterUserHandler.run d nm email password).1 = .error e) :
    e.status ∈ [400, 401, 404, 409, 500] ∧ e.message ≠ "" := by
  cases hf : d.findByEmail email with
  | failure =>
    simp [RegisterUserHandler.run, hf] at he
    rw [← he]
    exact ⟨by simp [findByEmailDbError], by simp [findByEmailDbError]⟩
  | found u =>
    simp [RegisterUserHandler.run, hf] at he
    rw [← he]
    exact ⟨by simp [userAlreadyExists], by simp [userAlreadyExists]⟩
  | absent =>
    cases hho : d.hash password with
    | failure m =>
      simp [RegisterUserHandler.run, hf, hho] at he
      rw [← he]
      refine ⟨by simp, ?_⟩
      cases m with
      | none => simp
      | some s =>
        simp only [Option.getD]
        intro hzero
        exact hh (by rw [hho, hzero])
    | ok hp =>
      cases hsv : d.save ⟨d.freshId, email, nm, some hp, true⟩ with
      | failure =>
        simp [RegisterUserHandler.run, hf, hho, hsv] at he
        rw [← he]
        exact ⟨by simp [saveDbError], by simp [saveDbError]⟩
      | dupEmail =>
        simp [RegisterUserHandler.run, hf, hho, hsv] at he
        rw [← he]
        refine ⟨by simp [saveDupEmailError], ?_⟩
        simp only [saveDupEmailError]
        exact append_right_ne_empty _ _ (by decide)
      | ok =>
        cases hso : d.sign { id := d.freshId, email := email, name := nm } with
        | failure m =>
          simp [RegisterUserHandler.run, hf, hho, hsv, prismaRoundTrip,
            hso] at he
          rw [← he]
          refine ⟨by simp, ?_⟩
          cases m with
          | none => simp
          | some s =>
            simp only [Option.getD]
            intro hzero
            exact hs _ (by rw [hso, hzero])
        | ok tok =>
          simp [RegisterUserHandler.run, hf, hho, hsv, prismaRoundTrip,
            hso] at he

/-- Classification of every error the verify workflow can return. -/
theorem verify_error_classified (secret : String) (vnow : Nat)
    (vsign : JwtPayload → SignOutcome) (pt : PresentedToken) (e : RpcError)
    (he : VerifyTokenHandler.execute secret vnow vsign pt = .error e) :
    e.status ∈ [400, 401, 404, 409, 500] ∧ e.message ≠ "" := by
  cases hv : JwtTokenAdapter.verifyToken secret vnow pt with
  | error e' =>
    simp [VerifyTokenHandler.execute, hv] at he
    rw [← he]
    exact ⟨by simp, by simp⟩
  | ok q =>
    cases hso : vsign q with
    | failure m =>
      simp [VerifyTokenHandler.execute, hv, hso] at he
      rw [← he]
      exact ⟨by simp, by simp⟩
    | ok tok =>
      simp [VerifyTokenHandler.execute, hv, hso] at he

/-- C7: every error any of the three workflows surfaces — provided that collaborator
rejections never carry an empty message string — has a
status code among 400, 401, 404, 409, 500 and a non-empty message, and
the global exception filter (modelled from the spec; its source is not
in the snapshot) wraps it into the uniform envelope of exactly that
status, that message, and the current timestamp. -/
theorem error_envelope_uniform
    (dL : LoginDeps) (dR : RegisterDeps) (secret : String) (vnow : Nat)
    (vsign : JwtPayload → SignOutcome) (pt : PresentedToken)
    (nm email password : String) (now : Nat) (e : RpcError)
    (hLc : ∀ hsh, dL.compare password hsh ≠ .failure (some ""))
    (hLs : ∀ q, dL.sign q ≠ .failure (some ""))
    (hRh : dR.hash password ≠ .failure (some ""))
    (hRs : ∀ q, dR.sign q ≠ .failure (some ""))
    (hsrc : LoginUserHandler.execute dL email password = .error e ∨
      (RegisterUserHandler.run dR nm email password).1 = .error e ∨
      VerifyTokenHandler.execute secret vnow vsign pt = .error e) :
    e.status ∈ [400, 401, 404, 409, 500] ∧ e.message ≠ "" ∧
    AllExceptionsFilter.toEnvelope e now =
      { status := e.status, message := e.message, timestamp := now } := by
  have hclass : e.status ∈ [400, 401, 404, 409, 500] ∧ e.message ≠ "" := by
    rcases hsrc with hL | hR | hV
    · exact login_error_classified dL email password e hLc hLs hL
    · exact register_error_classified dR nm email password e hRh hRs hR
    · exact verify_error_classified secret vnow vsign pt e hV
  exact ⟨hclass.1, hclass.2, rfl⟩

/-- C7 witness: the login failure for an unknown email, wrapped by the
filter at time 42. -/
theorem error_envelope_uniform_witness :
    invalidCredentials.status ∈ [400, 401, 404, 409, 500] ∧
    invalidCredentials.message ≠ "" ∧
    AllExceptionsFilter.toEnvelope invalidCredentials 42 =
      { status := invalidCredentials.status,
        message := invalidCredentials.message, timestamp := 42 } :=
  error_envelope_uniform dLoginAda dRegFresh "secret" 0
    (goodSign "secret" 7200 0) .malformed "Ada" "nobody@x.io" "Str0ng!Pass"
    42 invalidCredentials
    (fun hsh hcon => CompareOutcome.noConfusion hcon)
    (fun q hcon => SignOutcome.noConfusion hcon)
    (fun hcon => HashOutcome.noConfusion hcon)
    (fun q hcon => SignOutcome.noConfusion hcon)
    (Or.inl (by rfl))
